import Mathlib

/-!
Shallow embedding of the worker-pool-to-machine-class compiler of
gardener-extension-provider-kubevirt, together with its admission
validators, and proofs of the specification claims about them.

The definitions mirror the Go sources:
  * pkg/controller/worker/machines.go     (machine config generation)
  * pkg/apis/kubevirt/helper (part_001)   (config extractors)
  * pkg/admission/validator/shoot.go      (shoot update validation)
  * pkg/admission/validator (part_000)    (secret validation)

External collaborators (Kubernetes client, chart applier, decoders,
hash function) are modelled as explicit environment records; opaque
serialized payloads are modelled as values that either decode or are
malformed, since the decoder itself is an external library.
-/

namespace Kubevirt

/-- Model of `resource.Quantity` from k8s.io/apimachinery, modelled by its string
form. The quantity grammar is external library code; the claims under
verification do not depend on which strings are valid quantities, so
parsing is modelled as succeeding exactly on nonempty strings. -/
structure Quantity where
  str : String
deriving Repr, DecidableEq

/-- Go `%q` formatting of a string (used in error messages). -/
def goQuote (s : String) : String := "\x22" ++ s ++ "\x22"

/-- Model of `resource.ParseQuantity`, see `Quantity`. -/
def parseQuantity (s : String) : Except String Quantity :=
  if s.isEmpty then .error ("cannot parse quantity " ++ goQuote s) else .ok ⟨s⟩

/-- Model of `cdicorev1alpha1.DataVolumeSourcePVC`. -/
structure DataVolumeSourcePVC where
  Namespace : String
  Name : String
deriving Repr, DecidableEq

/-- Model of `cdicorev1alpha1.DataVolumeSourceHTTP`. -/
structure DataVolumeSourceHTTP where
  URL : String
deriving Repr, DecidableEq

/-- Model of `cdicorev1alpha1.DataVolumeBlankImage` (no fields). -/
structure DataVolumeBlankImage where
deriving Repr, DecidableEq

/-- Model of `cdicorev1alpha1.DataVolumeSource`: at most one of the three pointers set. -/
structure DataVolumeSource where
  PVC : Option DataVolumeSourcePVC := none
  HTTP : Option DataVolumeSourceHTTP := none
  Blank : Option DataVolumeBlankImage := none
deriving Repr, DecidableEq

/-- Model of `corev1.PersistentVolumeClaimSpec`, restricted to the fields the builders set. -/
structure PersistentVolumeClaimSpec where
  AccessModes : List String
  RequestsStorage : Quantity
  StorageClassName : Option String
deriving Repr, DecidableEq

/-- Model of `cdicorev1alpha1.DataVolumeSpec`. -/
structure DataVolumeSpec where
  PVC : Option PersistentVolumeClaimSpec := none
  Source : DataVolumeSource := {}
deriving Repr, DecidableEq

/-- machines.go `buildDataVolumeSpecWithPVCSource`. -/
def buildDataVolumeSpecWithPVCSource (storageClassName : String) (storageSize : Quantity)
    (ns name : String) : DataVolumeSpec :=
  { PVC := some
      { AccessModes := ["ReadWriteOnce"]
        RequestsStorage := storageSize
        StorageClassName := some storageClassName }
    Source := { PVC := some { Namespace := ns, Name := name } } }

/-- machines.go `buildDataVolumeSpecWithHTTPSource`. -/
def buildDataVolumeSpecWithHTTPSource (storageClassName : String) (storageSize : Quantity)
    (url : String) : DataVolumeSpec :=
  { PVC := some
      { AccessModes := ["ReadWriteOnce"]
        RequestsStorage := storageSize
        StorageClassName := some storageClassName }
    Source := { HTTP := some { URL := url } } }

/-- machines.go `buildDataVolumeSpecWithBlankSource`. -/
def buildDataVolumeSpecWithBlankSource (storageClassName : String) (storageSize : Quantity) :
    DataVolumeSpec :=
  { PVC := some
      { AccessModes := ["ReadWriteOnce"]
        RequestsStorage := storageSize
        StorageClassName := some storageClassName }
    Source := { Blank := some {} } }

/-- Number of source variants populated in a `DataVolumeSpec`. -/
def sourceCount (s : DataVolumeSpec) : Nat :=
  (if s.Source.PVC.isSome then 1 else 0) +
  (if s.Source.HTTP.isSome then 1 else 0) +
  (if s.Source.Blank.isSome then 1 else 0)

/-!
### Opaque serialized payloads and their decoders

A `runtime.RawExtension` carries raw serialized bytes. The decoders are
external library code (a strict one rejecting unknown fields and a lenient
one); raw bytes are therefore modelled by what they decode to: a value
accepted by both decoders, a legacy value accepted only by the lenient
decoder, or malformed bytes rejected by both.
-/

/-- The decoding behavior of a chunk of raw serialized bytes. -/
inductive RawBytes (α : Type) where
  | malformed (msg : String)
  | legacy (a : α) (msg : String)
  | value (a : α)
deriving Repr, DecidableEq

/-- Model of `runtime.RawExtension`: the `Raw` byte slice may itself be nil. -/
structure RawExtension (α : Type) where
  Raw : Option (RawBytes α) := none
deriving Repr, DecidableEq

/-- Model of `decoder.Decode` on raw bytes, for the strict or the lenient decoder. -/
def decodeRawBytes {α : Type} (strict : Bool) : RawBytes α → Except String α
  | .malformed msg => .error msg
  | .legacy a msg => if strict then .error msg else .ok a
  | .value a => .ok a

/-!
### Provider-specific configuration types (pkg/apis/kubevirt)

Only the fields the modelled code reads are carried; the remaining
payload content is irrelevant to the claims. Zero values (the Go empty
structs the extractors start from) are the Lean default field values.
-/

/-- Model of `apiskubevirt.WorkerConfig`, the per-pool provider config extension. -/
structure WorkerConfig where
  Devices : Option String := none
  CPU : Option String := none
  Memory : Option String := none
  DNSPolicy : String := ""
  DNSConfig : Option String := none
  OvercommitGuestOverhead : Bool := false
  DisablePreAllocatedDataVolumes : Bool := false
deriving Repr, DecidableEq

/-- One network entry of `apiskubevirt.InfrastructureStatus`. -/
structure NetworkStatus where
  Name : String
  Default : Bool
  SHA : String
deriving Repr, DecidableEq

/-- Model of `apiskubevirt.InfrastructureStatus`. -/
structure InfrastructureStatus where
  Networks : List NetworkStatus := []
deriving Repr, DecidableEq

/-- Model of `apiskubevirt.InfrastructureConfig`. -/
structure InfrastructureConfig where
  TenantNetworks : List String := []
deriving Repr, DecidableEq

/-- Model of `apiskubevirt.ControlPlaneConfig`. -/
structure ControlPlaneConfig where
  FeatureGates : List (String × Bool) := []
deriving Repr, DecidableEq

/-- Resource limits of an `apiskubevirt.MachineType` extension entry. -/
structure ResourceLimits where
  CPU : Quantity
  Memory : Quantity
deriving Repr, DecidableEq

/-- Model of `apiskubevirt.MachineType`: cloud-profile-config extension attributes
layered over a machine type, keyed by name. -/
structure KubevirtMachineType where
  Name : String
  Limits : Option ResourceLimits := none
deriving Repr, DecidableEq

/-- One machine image entry of `apiskubevirt.CloudProfileConfig`
(name and version resolve to a source URL). -/
structure CloudProfileMachineImage where
  Name : String
  Version : String
  SourceURL : String
deriving Repr, DecidableEq

/-- Model of `apiskubevirt.CloudProfileConfig`. -/
structure CloudProfileConfig where
  MachineTypes : List KubevirtMachineType := []
  MachineImages : List CloudProfileMachineImage := []
deriving Repr, DecidableEq

/-- Model of `apiskubevirt.MachineImage`, an entry of the generator's image status list. -/
structure MachineImage where
  Name : String
  Version : String
  SourceURL : String
deriving Repr, DecidableEq

/-- Model of `apiskubevirt.WorkerStatus`. -/
structure WorkerStatus where
  MachineImages : List MachineImage := []
deriving Repr, DecidableEq

/-!
### Cloud profile catalog types (gardener core v1beta1)
-/

/-- Model of `corev1beta1.MachineTypeStorage` (`Class`, optional `StorageSize`). -/
structure MachineTypeStorage where
  Class : String
  StorageSize : Option Quantity := none
deriving Repr, DecidableEq

/-- Model of `corev1beta1.MachineType`, a cloud profile machine type catalog entry. -/
structure MachineType where
  Name : String
  CPU : Quantity
  Memory : Quantity
  Storage : Option MachineTypeStorage := none
deriving Repr, DecidableEq

/-- Model of `corev1beta1.VolumeType`, a cloud profile volume type catalog entry. -/
structure VolumeType where
  Name : String
  Class : String
deriving Repr, DecidableEq

/-- Model of `gardencorev1beta1.CloudProfileSpec`, restricted to the fields read here. -/
structure CloudProfileSpec where
  MachineTypes : List MachineType := []
  VolumeTypes : List VolumeType := []
  ProviderConfig : Option (RawExtension CloudProfileConfig) := none
deriving Repr, DecidableEq

/-- Model of `gardencorev1beta1.CloudProfile`. -/
structure CloudProfile where
  Name : String := ""
  Spec : CloudProfileSpec := {}
deriving Repr, DecidableEq

/-!
### Worker object (extensionsv1alpha1) and worker pools
-/

/-- Model of `pool.MachineImage` (name and version reference). -/
structure PoolMachineImage where
  Name : String
  Version : String
deriving Repr, DecidableEq

/-- Model of `extensionsv1alpha1.Volume`. The Go field `Type` (a keyword in Lean,
rendered `Type'`) is a pointer dereferenced unconditionally by the
generator, so it is carried here already dereferenced. -/
structure PoolVolume where
  Type' : String
  Size : String
deriving Repr, DecidableEq

/-- Model of `extensionsv1alpha1.DataVolume` (additional data disk of a pool),
with the volume type carried as in `PoolVolume`. -/
structure PoolDataVolume where
  Name : String
  Type' : String
  Size : String
deriving Repr, DecidableEq

/-- An absolute count or a percentage (`intstr.IntOrString`). -/
inductive IntOrPercent where
  | int (v : Int)
  | percent (p : Int)
deriving Repr, DecidableEq

/-- Model of `extensionsv1alpha1.WorkerPool`. -/
structure WorkerPool where
  Name : String
  MachineType : String
  MachineImage : PoolMachineImage
  Volume : Option PoolVolume := none
  DataVolumes : List PoolDataVolume := []
  Zones : List String := []
  Minimum : Int := 0
  Maximum : Int := 0
  MaxSurge : IntOrPercent := .int 0
  MaxUnavailable : IntOrPercent := .int 0
  Labels : List (String × String) := []
  Annotations : List (String × String) := []
  Taints : List String := []
  UserData : String := ""
  MachineControllerManagerSettings : Option String := none
  ProviderConfig : Option (RawExtension WorkerConfig) := none
deriving Repr, DecidableEq

/-- Model of `corev1.SecretReference`. -/
structure SecretReference where
  Namespace : String := ""
  Name : String := ""
deriving Repr, DecidableEq

/-- Model of `extensionsv1alpha1.WorkerSpec`, restricted to the fields read here. -/
structure WorkerSpec where
  SecretRef : SecretReference := {}
  Region : String := ""
  SSHPublicKey : String := ""
  InfrastructureProviderStatus : Option (RawExtension InfrastructureStatus) := none
  Pools : List WorkerPool := []
deriving Repr, DecidableEq

/-- Model of `extensionsv1alpha1.WorkerStatus` section holding the provider status. -/
structure WorkerStatusSection where
  ProviderStatus : Option (RawExtension WorkerStatus) := none
deriving Repr, DecidableEq

/-- Model of `extensionsv1alpha1.Worker`. -/
structure Worker where
  Namespace : String := ""
  Name : String := ""
  Spec : WorkerSpec := {}
  Status : WorkerStatusSection := {}
deriving Repr, DecidableEq

/-- Model of `extensionsv1alpha1.Infrastructure`, restricted to the provider config. -/
structure Infrastructure where
  Namespace : String := ""
  Name : String := ""
  ProviderConfig : Option (RawExtension InfrastructureConfig) := none
deriving Repr, DecidableEq

/-- Model of `extensionsv1alpha1.ControlPlane`, restricted to the provider config. -/
structure ControlPlane where
  Namespace : String := ""
  Name : String := ""
  ProviderConfig : Option (RawExtension ControlPlaneConfig) := none
deriving Repr, DecidableEq

/-- Model of `kutil.ObjectName`: `namespace/name`. -/
def goObjectName (ns name : String) : String := ns ++ "/" ++ name

/-!
### Config extractors (pkg/apis/kubevirt/helper, src/unnamed/part_001)

The helper package uses the strict decoder. Each extractor returns the
zero value when the payload pointer or its raw bytes are nil and only
attempts decoding on a present payload.
-/

/-- helper `GetCloudProfileConfig`. -/
def GetCloudProfileConfig (cloudProfile : CloudProfile) : Except String CloudProfileConfig :=
  match cloudProfile.Spec.ProviderConfig with
  | some ext =>
    match ext.Raw with
    | some raw =>
      match decodeRawBytes true raw with
      | .error e =>
        .error ("could not decode providerConfig of cloudProfile " ++
          goQuote (goObjectName "" cloudProfile.Name) ++ " " ++ e)
      | .ok config => .ok config
    | none => .ok {}
  | none => .ok {}

/-- helper `GetInfrastructureConfig`. -/
def GetInfrastructureConfig (infra : Infrastructure) : Except String InfrastructureConfig :=
  match infra.ProviderConfig with
  | some ext =>
    match ext.Raw with
    | some raw =>
      match decodeRawBytes true raw with
      | .error e =>
        .error ("could not decode providerConfig of infrastructure " ++
          goQuote (goObjectName infra.Namespace infra.Name) ++ " " ++ e)
      | .ok config => .ok config
    | none => .ok {}
  | none => .ok {}

/-- helper `GetControlPlaneConfig`. -/
def GetControlPlaneConfig (cp : ControlPlane) : Except String ControlPlaneConfig :=
  match cp.ProviderConfig with
  | some ext =>
    match ext.Raw with
    | some raw =>
      match decodeRawBytes true raw with
      | .error e =>
        .error ("could not decode providerConfig of controlplane " ++
          goQuote (goObjectName cp.Namespace cp.Name) ++ " " ++ e)
      | .ok config => .ok config
    | none => .ok {}
  | none => .ok {}

/-- helper `GetWorkerConfig`. -/
def GetWorkerConfig (p : WorkerPool) : Except String WorkerConfig :=
  match p.ProviderConfig with
  | some ext =>
    match ext.Raw with
    | some raw =>
      match decodeRawBytes true raw with
      | .error e =>
        .error ("could not decode providerConfig of worker pool " ++
          goQuote p.Name ++ " " ++ e)
      | .ok config => .ok config
    | none => .ok {}
  | none => .ok {}

/-- helper `GetInfrastructureStatus`. -/
def GetInfrastructureStatus (w : Worker) : Except String InfrastructureStatus :=
  match w.Spec.InfrastructureProviderStatus with
  | some ext =>
    match ext.Raw with
    | some raw =>
      match decodeRawBytes true raw with
      | .error e =>
        .error ("could not decode infrastructureProviderStatus of worker " ++
          goQuote (goObjectName w.Namespace w.Name) ++ " " ++ e)
      | .ok status => .ok status
    | none => .ok {}
  | none => .ok {}

/-- helper `GetWorkerStatus`. -/
def GetWorkerStatus (w : Worker) : Except String WorkerStatus :=
  match w.Status.ProviderStatus with
  | some ext =>
    match ext.Raw with
    | some raw =>
      match decodeRawBytes true raw with
      | .error e =>
        .error ("could not decode providerStatus of worker " ++
          goQuote (goObjectName w.Namespace w.Name) ++ " " ++ e)
      | .ok status => .ok status
    | none => .ok {}
  | none => .ok {}

/-!
### Zone distributor

`worker.DistributeOverZones` and `worker.DistributePositiveIntOrPercent`
live in the gardener extensions library, outside this repository's
sources; they are modelled from the spec.
-/

/-- Modelled from the spec: the Zone Distributor splits a total over
`zoneCount` zones so that the shares sum to the total, every share is
non-negative, and earlier zone indices absorb the remainder
(`worker.DistributeOverZones` of the gardener extensions library, absent
from the repository sources). -/
def DistributeOverZones (zoneIndex size zoneCount : Int) : Int :=
  size / zoneCount + (if zoneIndex < size % zoneCount then 1 else 0)

/-- Modelled from the spec: an int-or-percent bound is resolved once
against the reference total before distribution. -/
def resolveIntOrPercent (v : IntOrPercent) (reference : Int) : Int :=
  match v with
  | .int n => n
  | .percent p => p * reference / 100

/-- Modelled from the spec: `worker.DistributePositiveIntOrPercent`
resolves the bound against the reference and distributes the result over
the zones (absent from the repository sources). -/
def DistributePositiveIntOrPercent (zoneIndex : Int) (v : IntOrPercent)
    (zoneCount reference : Int) : Int :=
  DistributeOverZones zoneIndex (resolveIntOrPercent v reference) zoneCount

/-!
### Machine config generator (pkg/controller/worker/machines.go)
-/

/-- Model of `kubevirtv1.ResourceRequirements` as built by the generator. -/
structure ResourceRequirements where
  RequestsCPU : Quantity
  RequestsMemory : Quantity
  Limits : Option ResourceLimits := none
  OvercommitGuestOverhead : Bool := false
deriving Repr, DecidableEq

/-- One entry of a machine class's `additionalVolumes` list. -/
structure AdditionalVolume where
  name : String
  dataVolume : DataVolumeSpec
deriving Repr, DecidableEq

/-- The machine class values map emitted per (pool, zone); keys of the Go
`map[string]interface{}` become fields. -/
structure MachineClass where
  name : String
  region : String
  zone : String
  resources : ResourceRequirements
  devices : Option String
  rootVolume : DataVolumeSpec
  additionalVolumes : List AdditionalVolume
  sshKeys : List String
  networks : List NetworkStatus
  cpu : Option String
  memory : Option String
  dnsPolicy : String
  dnsConfig : Option String
  tags : List (String × String)
  secretCloudConfig : String
  secretKubeconfig : String
deriving Repr, DecidableEq

/-- Model of `worker.MachineDeployment` (gardener extensions library output shape).
Surge and unavailable bounds are carried already resolved, matching the
spec-modelled zone distributor. -/
structure MachineDeployment where
  Name : String
  ClassName : String
  SecretName : String
  Minimum : Int
  Maximum : Int
  MaxSurge : Int
  MaxUnavailable : Int
  Labels : List (String × String)
  Annotations : List (String × String)
  Taints : List String
  MachineConfiguration : Option String
deriving Repr, DecidableEq

/-- Model of `genericworkeractuator.ReadMachineConfiguration` (external library):
reads the pool's machine-controller-manager settings. -/
def ReadMachineConfiguration (pool : WorkerPool) : Option String :=
  pool.MachineControllerManagerSettings

/-- Model of `extensionscontroller.Cluster`, restricted to the cloud profile. -/
structure Cluster where
  CloudProfile : CloudProfile := {}
deriving Repr, DecidableEq

/-- The `workerDelegate` receiver: its inputs and its mutable accumulator
fields (`machineClasses` … `machineClassVolumes`), which start nil. The
class-volume map is an association list where insertion prepends after
removing the old binding. -/
structure WorkerDelegate where
  worker : Worker
  cluster : Cluster := {}
  cloudProfileConfig : Option CloudProfileConfig := none
  machineClasses : Option (List MachineClass) := none
  machineDeployments : Option (List MachineDeployment) := none
  machineImages : List MachineImage := []
  machineClassVolumes : List (String × DataVolumeSpec) := []
deriving Repr, DecidableEq

/-- Insertion into the `machineClassVolumes` map (Go map assignment). -/
def mapInsert (m : List (String × DataVolumeSpec)) (k : String) (v : DataVolumeSpec) :
    List (String × DataVolumeSpec) :=
  (k, v) :: m.filter (fun kv => kv.1 ≠ k)

/-- The generator's external collaborators: kubeconfig fetch, provider
client construction, status conversion, pool hashing, chart apply and
data volume reconciliation. Each is the (deterministic, for the duration
of a run) outcome of an external call. -/
structure WorkerEnv where
  getKubeConfig : Except String String
  getClientNamespace : String → Except String String
  convertInfrastructureStatus : InfrastructureStatus → Except String (List NetworkStatus)
  workerPoolHash : WorkerPool → List String → Except String String
  applyChart : Except String Unit
  createOrUpdateDataVolume :
    String → String → List (String × String) → DataVolumeSpec → Except String Unit

/-- machines.go `getMachineType`: linear scan of the cloud profile's
machine types, first match wins. -/
def getMachineType (w : WorkerDelegate) (name : String) : Except String MachineType :=
  match w.cluster.CloudProfile.Spec.MachineTypes.find? (fun mt => mt.Name = name) with
  | some mt => .ok mt
  | none => .error ("machine type " ++ goQuote name ++ " not found in cloud profile")

/-- machines.go `getVolumeType`: linear scan of the cloud profile's
volume types, first match wins. -/
def getVolumeType (w : WorkerDelegate) (name : String) : Except String VolumeType :=
  match w.cluster.CloudProfile.Spec.VolumeTypes.find? (fun vt => vt.Name = name) with
  | some vt => .ok vt
  | none => .error ("volume type " ++ goQuote name ++ " not found in cloud profile")

/-- machines.go `getMachineTypeExtension`: optional extension attributes
from the cloud profile config, absence is not an error. -/
def getMachineTypeExtension (w : WorkerDelegate) (name : String) : Option KubevirtMachineType :=
  match w.cloudProfileConfig with
  | some config => config.MachineTypes.find? (fun mt => mt.Name = name)
  | none => none

/-- machines.go `getStorageClassNameAndSize`. -/
def getStorageClassNameAndSize (w : WorkerDelegate) (volumeTypeName volumeSize : String) :
    Except String (String × Quantity) :=
  match getVolumeType w volumeTypeName with
  | .error e => .error e
  | .ok volumeType =>
    match parseQuantity volumeSize with
    | .error e =>
      .error ("could not parse volume size " ++ goQuote volumeSize ++ " as quantity " ++ e)
    | .ok storageSize => .ok (volumeType.Class, storageSize)

/-- Modelled from the spec: `getMachineImageURL` resolves a machine image
name and version to its source URL via the cloud profile config's image
catalog; a lookup miss is a hard error (the function's body is absent
from the repository sources). -/
def getMachineImageURL (w : WorkerDelegate) (name version : String) : Except String String :=
  match w.cloudProfileConfig with
  | some config =>
    match config.MachineImages.find? (fun mi => mi.Name = name && mi.Version = version) with
    | some mi => .ok mi.SourceURL
    | none =>
      .error ("could not find machine image for name " ++ goQuote name ++
        " and version " ++ goQuote version)
  | none =>
    .error ("could not find machine image for name " ++ goQuote name ++
      " and version " ++ goQuote version)

/-- Modelled from the spec: `appendMachineImage` keeps the image list
deduplicated by name and version, first insertion wins (the function's
body is absent from the repository sources). -/
def appendMachineImage (images : List MachineImage) (image : MachineImage) :
    List MachineImage :=
  if images.any (fun i => i.Name = image.Name && i.Version = image.Version) then images
  else images ++ [image]

/-- The root volume resolution switch of `generateMachineConfig`
(machines.go lines 179-192): prefer the pool's explicit volume spec,
fall back to the machine type's built-in storage, otherwise fail. -/
def resolveRootVolume (w : WorkerDelegate) (pool : WorkerPool) (machineType : MachineType) :
    Except String (String × Quantity) :=
  match pool.Volume with
  | some volume => getStorageClassNameAndSize w volume.Type' volume.Size
  | none =>
    match machineType.Storage with
    | some storage =>
      match storage.StorageSize with
      | some storageSize => .ok (storage.Class, storageSize)
      | none => .error "missing volume in worker pool and storage in machine type"
    | none => .error "missing volume in worker pool and storage in machine type"

/-- The resource requirements construction of `generateMachineConfig`
(machines.go lines 162-177). -/
def mkResourceRequirements (w : WorkerDelegate) (machineType : MachineType)
    (workerConfig : WorkerConfig) : ResourceRequirements :=
  let base : ResourceRequirements :=
    { RequestsCPU := machineType.CPU
      RequestsMemory := machineType.Memory
      Limits := none
      OvercommitGuestOverhead := workerConfig.OvercommitGuestOverhead }
  match getMachineTypeExtension w machineType.Name with
  | some mt =>
    match mt.Limits with
    | some limits => { base with Limits := some limits }
    | none => base
  | none => base

/-- The additional (non-root) volume construction of
`generateMachineConfig` (machines.go lines 195-205): every data disk is
sourced blank. -/
def buildAdditionalVolumes (w : WorkerDelegate) :
    List PoolDataVolume → Except String (List AdditionalVolume)
  | [] => .ok []
  | volume :: rest =>
    match getStorageClassNameAndSize w volume.Type' volume.Size with
    | .error e => .error e
    | .ok (storageClassName, size) =>
      match buildAdditionalVolumes w rest with
      | .error e => .error e
      | .ok built =>
        .ok ({ name := volume.Name
               dataVolume := buildDataVolumeSpecWithBlankSource storageClassName size } :: built)

/-- The root volume / machine-class volume selection of
`generateMachineConfig` (machines.go lines 213-220): pre-allocation
enabled yields a PVC-sourced root volume plus a companion HTTP-sourced
class volume keyed by the class name; disabled yields a directly
HTTP-sourced root volume and no companion entry. -/
def buildRootVolumeAndClassVolume (workerConfig : WorkerConfig)
    (rootVolumeClassName : String) (rootVolumeSize : Quantity)
    (ns className imageSourceURL : String) :
    DataVolumeSpec × Option (String × DataVolumeSpec) :=
  if !workerConfig.DisablePreAllocatedDataVolumes then
    (buildDataVolumeSpecWithPVCSource rootVolumeClassName rootVolumeSize ns className,
     some (className,
       buildDataVolumeSpecWithHTTPSource rootVolumeClassName rootVolumeSize imageSourceURL))
  else
    (buildDataVolumeSpecWithHTTPSource rootVolumeClassName rootVolumeSize imageSourceURL, none)

/-- The body of the zone loop of `generateMachineConfig` (machines.go
lines 207-259): one machine class, one machine deployment, and the
optional machine-class volume insertion for zone index `zoneIndex`. -/
def processZone (w : WorkerDelegate) (pool : WorkerPool) (workerConfig : WorkerConfig)
    (kubeconfig ns : String) (networksV1alpha1 : List NetworkStatus)
    (workerPoolHash imageSourceURL : String)
    (resourceRequirements : ResourceRequirements)
    (rootVolumeClassName : String) (rootVolumeSize : Quantity)
    (additionalVolumes : List AdditionalVolume)
    (zoneIndex : Nat) (zone : String) :
    MachineClass × MachineDeployment × Option (String × DataVolumeSpec) :=
  let zoneLen : Int := pool.Zones.length
  let deploymentName := w.worker.Namespace ++ "-" ++ pool.Name ++ "-z" ++ toString (zoneIndex + 1)
  let className := deploymentName ++ "-" ++ workerPoolHash
  let rootAndClassVolume :=
    buildRootVolumeAndClassVolume workerConfig rootVolumeClassName rootVolumeSize
      ns className imageSourceURL
  let machineClass : MachineClass :=
    { name := className
      region := w.worker.Spec.Region
      zone := zone
      resources := resourceRequirements
      devices := workerConfig.Devices
      rootVolume := rootAndClassVolume.1
      additionalVolumes := additionalVolumes
      sshKeys := [w.worker.Spec.SSHPublicKey]
      networks := networksV1alpha1
      cpu := workerConfig.CPU
      memory := workerConfig.Memory
      dnsPolicy := workerConfig.DNSPolicy
      dnsConfig := workerConfig.DNSConfig
      tags := [("mcm.gardener.cloud/cluster", w.worker.Namespace),
               ("mcm.gardener.cloud/role", "node"),
               ("mcm.gardener.cloud/machineclass", className)]
      secretCloudConfig := pool.UserData
      secretKubeconfig := kubeconfig }
  let machineDeployment : MachineDeployment :=
    { Name := deploymentName
      ClassName := className
      SecretName := className
      Minimum := DistributeOverZones zoneIndex pool.Minimum zoneLen
      Maximum := DistributeOverZones zoneIndex pool.Maximum zoneLen
      MaxSurge := DistributePositiveIntOrPercent zoneIndex pool.MaxSurge zoneLen pool.Maximum
      MaxUnavailable :=
        DistributePositiveIntOrPercent zoneIndex pool.MaxUnavailable zoneLen pool.Minimum
      Labels := pool.Labels
      Annotations := pool.Annotations
      Taints := pool.Taints
      MachineConfiguration := ReadMachineConfiguration pool }
  (machineClass, machineDeployment, rootAndClassVolume.2)

/-- The per-pool outputs of one iteration of the pool loop. -/
structure PoolOutput where
  image : MachineImage
  classes : List MachineClass
  deployments : List MachineDeployment
  classVolumeInserts : List (String × DataVolumeSpec)
deriving Repr, DecidableEq

/-- One iteration of the pool loop of `generateMachineConfig` (machines.go
lines 134-260), up to accumulation: decode the pool's worker config,
resolve the machine type, hash the pool, resolve the image URL and the
root volume, build the additional volumes, and run the zone loop. -/
def computePool (env : WorkerEnv) (w : WorkerDelegate) (kubeconfig ns : String)
    (networksV1alpha1 : List NetworkStatus) (networksData : List String)
    (pool : WorkerPool) : Except String PoolOutput :=
  match GetWorkerConfig pool with
  | .error e =>
    .error ("could not get WorkerConfig from worker pool " ++ goQuote pool.Name ++ " " ++ e)
  | .ok workerConfig =>
    match getMachineType w pool.MachineType with
    | .error e => .error e
    | .ok machineType =>
      match env.workerPoolHash pool networksData with
      | .error e =>
        .error ("could not compute hash for worker pool " ++ goQuote pool.Name ++ " " ++ e)
      | .ok workerPoolHash =>
        match getMachineImageURL w pool.MachineImage.Name pool.MachineImage.Version with
        | .error e => .error e
        | .ok imageSourceURL =>
          let resourceRequirements := mkResourceRequirements w machineType workerConfig
          match resolveRootVolume w pool machineType with
          | .error e => .error e
          | .ok (rootVolumeClassName, rootVolumeSize) =>
            match buildAdditionalVolumes w pool.DataVolumes with
            | .error e => .error e
            | .ok additionalVolumes =>
              let zoneOuts := pool.Zones.enum.map (fun iz =>
                processZone w pool workerConfig kubeconfig ns networksV1alpha1
                  workerPoolHash imageSourceURL resourceRequirements
                  rootVolumeClassName rootVolumeSize additionalVolumes iz.1 iz.2)
              .ok { image := { Name := pool.MachineImage.Name
                               Version := pool.MachineImage.Version
                               SourceURL := imageSourceURL }
                    classes := zoneOuts.map (fun out => out.1)
                    deployments := zoneOuts.map (fun out => out.2.1)
                    classVolumeInserts := zoneOuts.filterMap (fun out => out.2.2) }

/-- The run's output collections accumulated across pools. -/
structure GenAccum where
  machineDeployments : List MachineDeployment := []
  machineClasses : List MachineClass := []
  machineImages : List MachineImage := []
  machineClassVolumes : List (String × DataVolumeSpec) := []
deriving Repr, DecidableEq

/-- Accumulation of one pool's outputs into the run collections. -/
def accumulatePool (acc : GenAccum) (out : PoolOutput) : GenAccum :=
  { machineDeployments := acc.machineDeployments ++ out.deployments
    machineClasses := acc.machineClasses ++ out.classes
    machineImages := appendMachineImage acc.machineImages out.image
    machineClassVolumes :=
      out.classVolumeInserts.foldl (fun m kv => mapInsert m kv.1 kv.2) acc.machineClassVolumes }

/-- The pool loop of `generateMachineConfig`: pools are processed strictly
in input order and the first failure aborts the run. -/
def processPools (env : WorkerEnv) (w : WorkerDelegate) (kubeconfig ns : String)
    (networksV1alpha1 : List NetworkStatus) (networksData : List String) :
    List WorkerPool → GenAccum → Except String GenAccum
  | [], acc => .ok acc
  | pool :: rest, acc =>
    match computePool env w kubeconfig ns networksV1alpha1 networksData pool with
    | .error e => .error e
    | .ok out =>
      processPools env w kubeconfig ns networksV1alpha1 networksData rest (accumulatePool acc out)

/-- The network hashing tokens (machines.go lines 125-128): name, default
flag and SHA of every network, flattened in order. -/
def networksDataOf (infrastructureStatus : InfrastructureStatus) : List String :=
  infrastructureStatus.Networks.foldl
    (fun acc n => acc ++ [n.Name, if n.Default then "true" else "false", n.SHA]) []

/-- machines.go `generateMachineConfig`. On success the four accumulator
fields of the delegate are set; on error the delegate is untouched (the
Go method assigns the fields only after the loop completes). -/
def generateMachineConfig (env : WorkerEnv) (w : WorkerDelegate) :
    Except String WorkerDelegate :=
  match env.getKubeConfig with
  | .error e => .error ("could not get kubeconfig from worker secret reference " ++ e)
  | .ok kubeconfig =>
    match env.getClientNamespace kubeconfig with
    | .error e => .error ("could not create client from kubeconfig " ++ e)
    | .ok ns =>
      match GetInfrastructureStatus w.worker with
      | .error e => .error ("could not get InfrastructureStatus from worker " ++ e)
      | .ok infrastructureStatus =>
        match env.convertInfrastructureStatus infrastructureStatus with
        | .error e => .error ("could not convert InfrastructureStatus to v1alpha1 " ++ e)
        | .ok networksV1alpha1 =>
          let networksData := networksDataOf infrastructureStatus
          if w.worker.Spec.SSHPublicKey.isEmpty then
            .error "missing sshPublicKey in worker"
          else
            match processPools env w kubeconfig ns networksV1alpha1 networksData
                w.worker.Spec.Pools {} with
            | .error e => .error e
            | .ok acc =>
              .ok { w with
                machineDeployments := some acc.machineDeployments
                machineClasses := some acc.machineClasses
                machineImages := acc.machineImages
                machineClassVolumes := acc.machineClassVolumes }

/-- machines.go `createOrUpdateMachineClassVolumes`. -/
def createOrUpdateMachineClassVolumes (env : WorkerEnv) (w : WorkerDelegate) :
    Except String Unit :=
  match env.getKubeConfig with
  | .error e => .error ("could not get kubeconfig from worker secret reference " ++ e)
  | .ok kubeconfig =>
    let labels := [("kubevirt.provider.extensions.gardener.cloud/cluster", w.worker.Namespace)]
    w.machineClassVolumes.foldlM
      (fun _ kv =>
        match env.createOrUpdateDataVolume kubeconfig kv.1 labels kv.2 with
        | .error e => .error ("could not create or update data volume " ++ goQuote kv.1 ++ " " ++ e)
        | .ok _ => .ok ())
      ()

/-- The tail of `DeployMachineClasses` after the optional generation:
chart apply and machine-class volume reconciliation. -/
def deployAfterGen (env : WorkerEnv) (w : WorkerDelegate) : Except String WorkerDelegate :=
  match env.applyChart with
  | .error e => .error ("could not apply machine-class chart " ++ e)
  | .ok _ =>
    match createOrUpdateMachineClassVolumes env w with
    | .error e => .error e
    | .ok _ => .ok w

/-- machines.go `DeployMachineClasses`: the machine config is generated
only when the `machineClasses` field is still nil. -/
def DeployMachineClasses (env : WorkerEnv) (w : WorkerDelegate) :
    Except String WorkerDelegate :=
  if w.machineClasses.isNone then
    match generateMachineConfig env w with
    | .error e => .error e
    | .ok w1 => deployAfterGen env w1
  else
    deployAfterGen env w

/-- machines.go `GenerateMachineDeployments`: the machine config is
generated only when the `machineDeployments` field is still nil; the
stored deployments are returned together with the (possibly updated)
delegate. -/
def GenerateMachineDeployments (env : WorkerEnv) (w : WorkerDelegate) :
    Except String (List MachineDeployment × WorkerDelegate) :=
  if w.machineDeployments.isNone then
    match generateMachineConfig env w with
    | .error e => .error e
    | .ok w1 => .ok (w1.machineDeployments.getD [], w1)
  else
    .ok (w.machineDeployments.getD [], w)

/-!
### Shoot admission validator (pkg/admission/validator/shoot.go)

The field-level validation functions (`validation.Validate…`) live in
pkg/apis/kubevirt/validation, outside the modelled sources; the validator
is therefore parameterized over them, and the theorems quantify over that
parameter. Field paths are rendered as dotted strings.
-/

/-- Model of `field.Error`: an admission field error at a path. -/
structure FieldError where
  path : String
  detail : String
deriving Repr, DecidableEq

/-- Model of `field.NewPath("spec")`. -/
def specPath : String := "spec"

/-- Model of `Path.Child`. -/
def childPath (p c : String) : String := p ++ "." ++ c

/-- Model of `Path.Index`. -/
def indexPath (p : String) (i : Nat) : String := p ++ "[" ++ toString i ++ "]"

/-- shoot.go `networkPath`. -/
def networkPath : String := childPath specPath "networking"

/-- shoot.go `providerPath`. -/
def providerPath : String := childPath specPath "provider"

/-- shoot.go `infrastructureConfigPath`. -/
def infrastructureConfigPath : String := childPath providerPath "infrastructureConfig"

/-- shoot.go `workersPath`. -/
def workersPath : String := childPath providerPath "workers"

/-- shoot.go `controlPlaneConfigPath`. -/
def controlPlaneConfigPath : String := childPath providerPath "controlPlaneConfig"

/-- shoot.go `workerConfigPath`. -/
def workerConfigPath (i : Nat) : String := childPath (indexPath workersPath i) "providerConfig"

/-- Model of `core.Worker` inside a shoot's provider section: name, opaque provider
config, and data volumes (carried by name). -/
structure ShootWorker where
  Name : String
  ProviderConfig : Option (RawExtension WorkerConfig) := none
  DataVolumes : List String := []
deriving Repr, DecidableEq

/-- Model of `core.Provider` of a shoot spec. -/
structure ShootProvider where
  InfrastructureConfig : Option (RawExtension InfrastructureConfig) := none
  ControlPlaneConfig : Option (RawExtension ControlPlaneConfig) := none
  Workers : List ShootWorker := []
deriving Repr, DecidableEq

/-- Model of `core.ShootSpec`, restricted to the fields the validator reads. -/
structure ShootSpec where
  Networking : String := ""
  KubernetesVersion : String := ""
  Provider : ShootProvider := {}
  CloudProfileName : String := ""
deriving Repr, DecidableEq

/-- Model of `core.Shoot`. -/
structure Shoot where
  Name : String := ""
  Spec : ShootSpec := {}
deriving Repr, DecidableEq

/-- shoot.go `workerConfigContext`. -/
structure ShootWorkerConfigContext where
  workerConfig : WorkerConfig
  dataVolumes : List String
deriving Repr, DecidableEq

/-- shoot.go `validationContext`. -/
structure ShootValidationContext where
  shoot : Shoot
  infrastructureConfig : InfrastructureConfig
  controlPlaneConfig : ControlPlaneConfig
  workerConfigsContexts : List ShootWorkerConfigContext
  cloudProfile : CloudProfile
  cloudProfileConfig : CloudProfileConfig
deriving Repr, DecidableEq

/-- The external field-validation functions of
pkg/apis/kubevirt/validation, as a parameter record. -/
structure ValidationFns where
  ValidateNetworking : String → String → List FieldError
  ValidateInfrastructureConfig : InfrastructureConfig → String → List FieldError
  ValidateControlPlaneConfig : ControlPlaneConfig → String → String → List FieldError
  ValidateWorkers : List ShootWorker → String → List FieldError
  ValidateWorkerConfig : WorkerConfig → List String → String → List FieldError
  ValidateInfrastructureConfigUpdate :
    InfrastructureConfig → InfrastructureConfig → String → List FieldError
  ValidateControlPlaneConfigUpdate :
    ControlPlaneConfig → ControlPlaneConfig → String → List FieldError
  ValidateWorkersUpdate : List ShootWorker → List ShootWorker → String → List FieldError
  ValidateWorkerConfigUpdate : WorkerConfig → WorkerConfig → String → List FieldError

/-- The shoot validator's external client: cloud profile lookup by name. -/
structure ShootValEnv where
  getCloudProfile : String → Except String CloudProfile

/-- Model of `admission.DecodeWorkerConfig` and friends (modelled from the spec's
config extractor contract: decode the raw payload with the given decoder;
an absent byte slice cannot be decoded). -/
def admissionDecode {α : Type} (strict : Bool) (ext : RawExtension α) : Except String α :=
  match ext.Raw with
  | some raw => decodeRawBytes strict raw
  | none => .error "missing raw payload"

/-- shoot.go `newValidationContext`: decodes the three config sections
(zero value when absent) and fetches and decodes the cloud profile
config, which must be present. `strict` selects the decoder: the strict
one for the proposed object, the lenient one for the prior version. -/
def newValidationContext (env : ShootValEnv) (strict : Bool) (shoot : Shoot) :
    Except String ShootValidationContext :=
  match (match shoot.Spec.Provider.InfrastructureConfig with
         | some ext =>
           match admissionDecode strict ext with
           | .error e =>
             Except.error ("could not decode infrastructureConfig of shoot " ++
               goQuote shoot.Name ++ " " ++ e)
           | .ok config => Except.ok config
         | none => Except.ok {}) with
  | .error e => .error e
  | .ok infrastructureConfig =>
    match (match shoot.Spec.Provider.ControlPlaneConfig with
           | some ext =>
             match admissionDecode strict ext with
             | .error e =>
               Except.error ("could not decode controlPlaneConfig of shoot " ++
                 goQuote shoot.Name ++ " " ++ e)
             | .ok config => Except.ok config
           | none => Except.ok {}) with
    | .error e => .error e
    | .ok controlPlaneConfig =>
      match shoot.Spec.Provider.Workers.foldr
          (fun worker rest =>
            match rest with
            | Except.error e => Except.error e
            | Except.ok contexts =>
              match (match worker.ProviderConfig with
                     | some ext =>
                       match admissionDecode strict ext with
                       | .error e =>
                         Except.error ("could not decode providerConfig of worker " ++
                           goQuote worker.Name ++ " " ++ e)
                       | .ok config => Except.ok config
                     | none => Except.ok {}) with
              | Except.error e => Except.error e
              | Except.ok workerConfig =>
                Except.ok ({ workerConfig := workerConfig
                             dataVolumes := worker.DataVolumes } :: contexts))
          (Except.ok []) with
      | .error e => .error e
      | .ok workerConfigsContexts =>
        match env.getCloudProfile shoot.Spec.CloudProfileName with
        | .error e => .error ("could not get cloud profile " ++ e)
        | .ok cloudProfile =>
          match cloudProfile.Spec.ProviderConfig with
          | none =>
            .error ("missing providerConfig in cloud profile " ++ goQuote cloudProfile.Name)
          | some providerConfig =>
            match admissionDecode true providerConfig with
            | .error e =>
              .error ("could not decode providerConfig of cloud profile " ++
                goQuote cloudProfile.Name ++ " " ++ e)
            | .ok cloudProfileConfig =>
              .ok { shoot := shoot
                    infrastructureConfig := infrastructureConfig
                    controlPlaneConfig := controlPlaneConfig
                    workerConfigsContexts := workerConfigsContexts
                    cloudProfile := cloudProfile
                    cloudProfileConfig := cloudProfileConfig }

/-- shoot.go `validateContext` (lines 112-126): the full structural check
of one shoot snapshot, including `ValidateWorkerConfig` on every pool. -/
def validateContext (fns : ValidationFns) (valContext : ShootValidationContext) :
    List FieldError :=
  fns.ValidateNetworking valContext.shoot.Spec.Networking networkPath ++
  fns.ValidateInfrastructureConfig valContext.infrastructureConfig infrastructureConfigPath ++
  fns.ValidateControlPlaneConfig valContext.controlPlaneConfig
    valContext.shoot.Spec.KubernetesVersion controlPlaneConfigPath ++
  fns.ValidateWorkers valContext.shoot.Spec.Provider.Workers workersPath ++
  (valContext.workerConfigsContexts.enum.map (fun ic =>
    fns.ValidateWorkerConfig ic.2.workerConfig ic.2.dataVolumes (workerConfigPath ic.1))).flatten

/-- The per-worker double loop of `validateUpdate` (shoot.go lines
168-176): update checks run for name-matched pools whose decoded config
changed. -/
def workerConfigUpdateErrors (fns : ValidationFns) (oldShoot shoot : Shoot)
    (oldContexts currentContexts : List ShootWorkerConfigContext) : List FieldError :=
  (currentContexts.enum.map (fun ic =>
    (oldContexts.enum.map (fun jc =>
      if ((shoot.Spec.Provider.Workers.get? ic.1).map ShootWorker.Name).getD "" =
           ((oldShoot.Spec.Provider.Workers.get? jc.1).map ShootWorker.Name).getD "" ∧
         jc.2.workerConfig ≠ ic.2.workerConfig then
        fns.ValidateWorkerConfigUpdate ic.2.workerConfig jc.2.workerConfig
          (workerConfigPath ic.1)
      else [])).flatten)).flatten

/-- shoot.go `validateUpdate` (lines 141-182): the old context is decoded
leniently and the new one strictly; update-specific checks run only on
changed sections, then the full structural validation of the new context
is appended. -/
def validateUpdate (env : ShootValEnv) (fns : ValidationFns) (oldShoot shoot : Shoot) :
    Except String (List FieldError) :=
  match newValidationContext env false oldShoot with
  | .error e => .error e
  | .ok oldValContext =>
    match newValidationContext env true shoot with
    | .error e => .error e
    | .ok currentValContext =>
      let infraErrors :=
        if oldValContext.infrastructureConfig = currentValContext.infrastructureConfig then []
        else fns.ValidateInfrastructureConfigUpdate oldValContext.infrastructureConfig
          currentValContext.infrastructureConfig infrastructureConfigPath
      let controlPlaneErrors :=
        if oldValContext.controlPlaneConfig = currentValContext.controlPlaneConfig then []
        else fns.ValidateControlPlaneConfigUpdate oldValContext.controlPlaneConfig
          currentValContext.controlPlaneConfig controlPlaneConfigPath
      let workersUpdateErrors :=
        fns.ValidateWorkersUpdate oldValContext.shoot.Spec.Provider.Workers
          currentValContext.shoot.Spec.Provider.Workers workersPath
      let workerUpdateErrors :=
        workerConfigUpdateErrors fns oldShoot shoot
          oldValContext.workerConfigsContexts currentValContext.workerConfigsContexts
      .ok (infraErrors ++ controlPlaneErrors ++ workersUpdateErrors ++ workerUpdateErrors ++
        validateContext fns currentValContext)

/-!
### Secret admission validator (src/unnamed/part_000)
-/

/-- Model of `corev1.Secret`: the data map as an association list. -/
structure Secret where
  Data : List (String × String) := []
deriving Repr, DecidableEq

/-- Model of `equality.Semantic.DeepEqual` on secret data maps: equal lookups on
the union of the key sets. -/
def mapEqual (a b : List (String × String)) : Bool :=
  (a.all fun kv => b.lookup kv.1 = some kv.2) && (b.all fun kv => a.lookup kv.1 = some kv.2)

/-- The secret validator's external collaborators: the in-use check
(`secretutil.IsSecretInUseByShoot`) and the kubeconfig content check
(`validation.ValidateCloudProviderSecret`, outside the modelled
sources). -/
structure SecretEnv where
  isSecretInUseByShoot : Secret → Except String Bool
  validateCloudProviderSecret : Secret → Except String Unit

/-- part_000 `Validate` of the secret validator: an update whose data is
semantically unchanged passes immediately; otherwise the secret is
checked for use by a kubevirt shoot, and only changed, in-use secrets
have their kubeconfig content validated. -/
def secretValidate (env : SecretEnv) (newSecret : Secret) (oldSecret : Option Secret) :
    Except String Unit :=
  let unchanged :=
    match oldSecret with
    | some old => mapEqual newSecret.Data old.Data
    | none => false
  if unchanged then .ok ()
  else
    match env.isSecretInUseByShoot newSecret with
    | .error e => .error ("could not check if secret is in use by shoot " ++ e)
    | .ok isInUse =>
      if !isInUse then .ok ()
      else env.validateCloudProviderSecret newSecret

/-!
### Concrete instances

Small concrete catalogs, workers shoots and environments used to
evaluate the theorems on closed inputs.
-/

/-- A machine type with built-in storage. -/
def exMachineType : MachineType :=
  { Name := "standard-1", CPU := ⟨"2"⟩, Memory := ⟨"4Gi"⟩
    Storage := some { Class := "local", StorageSize := some ⟨"20Gi"⟩ } }

/-- A machine type without built-in storage. -/
def exMachineTypeNoStorage : MachineType :=
  { Name := "diskless-1", CPU := ⟨"2"⟩, Memory := ⟨"4Gi"⟩, Storage := none }

/-- A volume type entry. -/
def exVolumeType : VolumeType := { Name := "default", Class := "standard" }

/-- A cloud profile config with one machine image. -/
def exCloudProfileConfig : CloudProfileConfig :=
  { MachineTypes := []
    MachineImages := [{ Name := "ubuntu", Version := "18.04", SourceURL := "http://img" }] }

/-- A cloud profile whose catalog holds the two machine types above. -/
def exCloudProfile : CloudProfile :=
  { Name := "cp"
    Spec := { MachineTypes := [exMachineType, exMachineTypeNoStorage]
              VolumeTypes := [exVolumeType]
              ProviderConfig := some { Raw := some (.value exCloudProfileConfig) } } }

/-- A worker pool with an explicit volume spec and two zones. -/
def exPool : WorkerPool :=
  { Name := "pool-a", MachineType := "standard-1"
    MachineImage := { Name := "ubuntu", Version := "18.04" }
    Volume := some { Type' := "default", Size := "10Gi" }
    Zones := ["z1", "z2"], Minimum := 4, Maximum := 6
    MaxSurge := .percent 50, MaxUnavailable := .int 0 }

/-- A pool referencing a machine type absent from the catalog. -/
def exPoolBad : WorkerPool := { exPool with Name := "pool-b", MachineType := "missing-type" }

/-- A pool with no volume spec whose machine type has no storage. -/
def exPoolNoVolume : WorkerPool :=
  { exPool with Name := "pool-c", MachineType := "diskless-1", Volume := none }

/-- A worker owning `exPool`. -/
def exWorker : Worker :=
  { Namespace := "shoot--ns"
    Spec := { Region := "r", SSHPublicKey := "ssh-rsa KEY", Pools := [exPool] } }

/-- The delegate for `exWorker` over the `exCloudProfile` catalog. -/
def exDelegate : WorkerDelegate :=
  { worker := exWorker
    cluster := { CloudProfile := exCloudProfile }
    cloudProfileConfig := some exCloudProfileConfig }

/-- A delegate whose second pool references a missing machine type. -/
def exDelegateBad : WorkerDelegate :=
  { exDelegate with worker :=
      { exWorker with Spec := { exWorker.Spec with Pools := [exPool, exPoolBad] } } }

/-- A delegate whose worker has an empty SSH public key. -/
def exDelegateNoSSH : WorkerDelegate :=
  { exDelegate with worker :=
      { exWorker with Spec := { exWorker.Spec with SSHPublicKey := "" } } }

/-- An environment where every external call succeeds. -/
def exEnv : WorkerEnv :=
  { getKubeConfig := .ok "KUBECONFIG"
    getClientNamespace := fun _ => .ok "provider-ns"
    convertInfrastructureStatus := fun status => .ok status.Networks
    workerPoolHash := fun _ _ => .ok "abc123"
    applyChart := .ok ()
    createOrUpdateDataVolume := fun _ _ _ _ => .ok () }

/-- The pool output generated for `exPool` (total when generation succeeds). -/
def exPoolOut : PoolOutput :=
  (computePool exEnv exDelegate "KUBECONFIG" "provider-ns" [] (networksDataOf {}) exPool
    ).toOption.getD
    { image := { Name := "", Version := "", SourceURL := "" }
      classes := [], deployments := [], classVolumeInserts := [] }

/-- Worker config of shoot pool "b" after the update. -/
def cfgBnew : WorkerConfig := { DisablePreAllocatedDataVolumes := true }

/-- Shoot worker "a" (unchanged between old and new). -/
def exShootWorkerA : ShootWorker :=
  { Name := "a", ProviderConfig := some { Raw := some (.value {}) } }

/-- Shoot worker "b" before the update (zero config). -/
def exShootWorkerBold : ShootWorker :=
  { Name := "b", ProviderConfig := some { Raw := some (.value {}) } }

/-- Shoot worker "b" after the update (changed config). -/
def exShootWorkerBnew : ShootWorker :=
  { Name := "b", ProviderConfig := some { Raw := some (.value cfgBnew) } }

/-- The prior shoot: pools "a" and "b". -/
def exOldShoot : Shoot :=
  { Name := "sh"
    Spec := { Provider := { Workers := [exShootWorkerA, exShootWorkerBold] }
              CloudProfileName := "cp" } }

/-- The proposed shoot: only pool "b"'s provider config differs. -/
def exNewShoot : Shoot :=
  { Name := "sh"
    Spec := { Provider := { Workers := [exShootWorkerA, exShootWorkerBnew] }
              CloudProfileName := "cp" } }

/-- A shoot validator environment serving `exCloudProfile`. -/
def exValEnv : ShootValEnv := { getCloudProfile := fun _ => .ok exCloudProfile }

/-- Validation functions that tag every structural worker-config check
with "structural" and every update check with "update", and find nothing
else wrong. -/
def taggingFns : ValidationFns :=
  { ValidateNetworking := fun _ _ => []
    ValidateInfrastructureConfig := fun _ _ => []
    ValidateControlPlaneConfig := fun _ _ _ => []
    ValidateWorkers := fun _ _ => []
    ValidateWorkerConfig := fun _ _ path => [{ path := path, detail := "structural" }]
    ValidateInfrastructureConfigUpdate := fun _ _ _ => []
    ValidateControlPlaneConfigUpdate := fun _ _ _ => []
    ValidateWorkersUpdate := fun _ _ _ => []
    ValidateWorkerConfigUpdate := fun _ _ path => [{ path := path, detail := "update" }] }

/-- A secret environment: not in use, content check succeeds. -/
def exSecretEnvNotInUse : SecretEnv :=
  { isSecretInUseByShoot := fun _ => .ok false
    validateCloudProviderSecret := fun _ => .ok () }

/-- A secret environment: in use, content check fails. -/
def exSecretEnvInUse : SecretEnv :=
  { isSecretInUseByShoot := fun _ => .ok true
    validateCloudProviderSecret := fun _ => .error "invalid kubeconfig" }

/-- A secret with one data entry. -/
def exSecret1 : Secret := { Data := [("kubeconfig", "KC1")] }

/-- A secret with the same data as `exSecret1`. -/
def exSecret1Copy : Secret := { Data := [("kubeconfig", "KC1")] }

/-- A secret with different data. -/
def exSecret2 : Secret := { Data := [("kubeconfig", "KC2")] }

/-- A delegate with already-populated accumulator fields. -/
def exDelegateCached : WorkerDelegate :=
  { exDelegate with machineClasses := some [], machineDeployments := some [] }

/-!
## Theorems
-/

/-- C1: every `DataVolumeSpec` produced by the three builders has exactly
one source variant set; in the zone step of `generateMachineConfig`, a
pool whose decoded worker config has `DisablePreAllocatedDataVolumes`
false gets a PVC-sourced root volume referencing the provider namespace
and the class name together with an HTTP-sourced machine-class volume
entry under that same class name, while true gets an HTTP-sourced root
volume and no machine-class volume entry; and an inserted machine-class
volume entry is retrievable from the map under its class name. -/
theorem claim1_volume_source_exclusivity
    (storageClassName : String) (storageSize : Quantity) (pvcNs pvcName url : String)
    (w : WorkerDelegate) (pool : WorkerPool) (cfg : WorkerConfig)
    (kubeconfig providerNs : String) (networks : List NetworkStatus)
    (hash imageURL : String) (rr : ResourceRequirements)
    (rootClass : String) (rootSize : Quantity) (addl : List AdditionalVolume)
    (i : Nat) (zone : String)
    (m : List (String × DataVolumeSpec)) (k : String) (v : DataVolumeSpec) :
    sourceCount (buildDataVolumeSpecWithPVCSource storageClassName storageSize pvcNs pvcName) = 1 ∧
    sourceCount (buildDataVolumeSpecWithHTTPSource storageClassName storageSize url) = 1 ∧
    sourceCount (buildDataVolumeSpecWithBlankSource storageClassName storageSize) = 1 ∧
    (let className :=
      w.worker.Namespace ++ "-" ++ pool.Name ++ "-z" ++ toString (i + 1) ++ "-" ++ hash
     let out := processZone w pool { cfg with DisablePreAllocatedDataVolumes := false }
       kubeconfig providerNs networks hash imageURL rr rootClass rootSize addl i zone
     out.1.rootVolume = buildDataVolumeSpecWithPVCSource rootClass rootSize providerNs className ∧
     out.2.2 = some (className, buildDataVolumeSpecWithHTTPSource rootClass rootSize imageURL)) ∧
    (let out := processZone w pool { cfg with DisablePreAllocatedDataVolumes := true }
       kubeconfig providerNs networks hash imageURL rr rootClass rootSize addl i zone
     out.1.rootVolume = buildDataVolumeSpecWithHTTPSource rootClass rootSize imageURL ∧
     out.2.2 = none) ∧
    (mapInsert m k v).lookup k = some v := by
  refine ⟨rfl, rfl, rfl, ⟨rfl, rfl⟩, ⟨rfl, rfl⟩, ?_⟩
  simp [mapInsert, List.lookup]

/-- C7: every config extractor yields the zero value and no error on an
absent payload (nil provider config pointer or nil raw bytes); a present
well-formed payload yields its value, and only a present malformed
payload yields a decode error. -/
theorem claim7_config_extractors_zero_value
    (p : WorkerPool) (w : Worker) (infra : Infrastructure) (cp : ControlPlane)
    (profile : CloudProfile) (m : String)
    (cfgW : WorkerConfig) (cfgI : InfrastructureConfig) (cfgC : ControlPlaneConfig)
    (cfgP : CloudProfileConfig) (st : InfrastructureStatus) (ws : WorkerStatus) :
    (GetWorkerConfig { p with ProviderConfig := none } = .ok {} ∧
     GetWorkerConfig { p with ProviderConfig := some { Raw := none } } = .ok {} ∧
     (GetWorkerConfig { p with ProviderConfig := some { Raw := some (.malformed m) } }).isOk
       = false ∧
     GetWorkerConfig { p with ProviderConfig := some { Raw := some (.value cfgW) } }
       = .ok cfgW) ∧
    (GetInfrastructureStatus
       { w with Spec := { w.Spec with InfrastructureProviderStatus := none } } = .ok {} ∧
     GetInfrastructureStatus
       { w with Spec := { w.Spec with InfrastructureProviderStatus := some { Raw := none } } }
       = .ok {} ∧
     (GetInfrastructureStatus
       { w with Spec := { w.Spec with
          InfrastructureProviderStatus := some { Raw := some (.malformed m) } } }).isOk
       = false ∧
     GetInfrastructureStatus
       { w with Spec := { w.Spec with
          InfrastructureProviderStatus := some { Raw := some (.value st) } } } = .ok st) ∧
    (GetCloudProfileConfig { profile with Spec := { profile.Spec with ProviderConfig := none } }
       = .ok {} ∧
     GetCloudProfileConfig
       { profile with Spec := { profile.Spec with ProviderConfig := some { Raw := none } } }
       = .ok {} ∧
     (GetCloudProfileConfig
       { profile with Spec := { profile.Spec with
          ProviderConfig := some { Raw := some (.malformed m) } } }).isOk = false ∧
     GetCloudProfileConfig
       { profile with Spec := { profile.Spec with
          ProviderConfig := some { Raw := some (.value cfgP) } } } = .ok cfgP) ∧
    (GetInfrastructureConfig { infra with ProviderConfig := none } = .ok {} ∧
     GetInfrastructureConfig { infra with ProviderConfig := some { Raw := none } } = .ok {} ∧
     (GetInfrastructureConfig
       { infra with ProviderConfig := some { Raw := some (.malformed m) } }).isOk = false ∧
     GetInfrastructureConfig { infra with ProviderConfig := some { Raw := some (.value cfgI) } }
       = .ok cfgI) ∧
    (GetControlPlaneConfig { cp with ProviderConfig := none } = .ok {} ∧
     GetControlPlaneConfig { cp with ProviderConfig := some { Raw := none } } = .ok {} ∧
     (GetControlPlaneConfig
       { cp with ProviderConfig := some { Raw := some (.malformed m) } }).isOk = false ∧
     GetControlPlaneConfig { cp with ProviderConfig := some { Raw := some (.value cfgC) } }
       = .ok cfgC) ∧
    (GetWorkerStatus { w with Status := { ProviderStatus := none } } = .ok {} ∧
     GetWorkerStatus { w with Status := { ProviderStatus := some { Raw := none } } } = .ok {} ∧
     (GetWorkerStatus
       { w with Status := { ProviderStatus := some { Raw := some (.malformed m) } } }).isOk
       = false ∧
     GetWorkerStatus { w with Status := { ProviderStatus := some { Raw := some (.value ws) } } }
       = .ok ws) :=
  ⟨⟨rfl, rfl, rfl, rfl⟩, ⟨rfl, rfl, rfl, rfl⟩, ⟨rfl, rfl, rfl, rfl⟩,
   ⟨rfl, rfl, rfl, rfl⟩, ⟨rfl, rfl, rfl, rfl⟩, ⟨rfl, rfl, rfl, rfl⟩⟩

/-- C10: the secret validator returns success immediately when old and
new data maps are semantically equal (for any environment, so neither the
in-use check nor the content check runs); a changed secret that is not in
use also passes; the kubeconfig content is validated exactly for changed,
in-use secrets. -/
theorem claim10_secret_validation_scoping
    (env : SecretEnv) (newSecret oldSecret : Secret) (oldArg : Option Secret) :
    (mapEqual newSecret.Data oldSecret.Data = true →
      secretValidate env newSecret (some oldSecret) = .ok ()) ∧
    (env.isSecretInUseByShoot newSecret = .ok false →
      secretValidate env newSecret oldArg = .ok ()) ∧
    (mapEqual newSecret.Data oldSecret.Data = false →
      env.isSecretInUseByShoot newSecret = .ok true →
      secretValidate env newSecret (some oldSecret) =
        env.validateCloudProviderSecret newSecret) := by
  refine ⟨?_, ?_, ?_⟩
  · intro h
    simp [secretValidate, h]
  · intro h
    cases oldArg with
    | none => simp [secretValidate, h]
    | some old =>
      by_cases hEq : mapEqual newSecret.Data old.Data = true
      · simp [secretValidate, hEq]
      · simp [secretValidate, hEq, h]
  · intro hNe hUse
    simp [secretValidate, hNe, hUse]

/-- Filtering a range by an upper bound yields a range. -/
theorem range_filter_lt (N bound : Nat) :
    (Finset.range N).filter (fun i => i < bound) = Finset.range (min bound N) := by
  ext i
  simp only [Finset.mem_filter, Finset.mem_range, lt_min_iff]
  omega

/-- The per-zone shares of `DistributeOverZones` sum to the total. -/
theorem sum_distributeOverZones (T : Int) (N : Nat) (_hT : 0 ≤ T) (hN : 1 ≤ N) :
    (∑ i in Finset.range N, DistributeOverZones i T N) = T := by
  have hNpos : (0 : Int) < (N : Int) := by exact_mod_cast hN
  have hN0 : ((N : Int)) ≠ 0 := ne_of_gt hNpos
  have hr0 : 0 ≤ T % (N : Int) := Int.emod_nonneg T hN0
  have hrN : T % (N : Int) < (N : Int) := Int.emod_lt_of_pos T hNpos
  have hcond : ∀ i : Nat, ((i : Int) < T % (N : Int)) ↔ (i < (T % (N : Int)).toNat) := by
    intro i; omega
  unfold DistributeOverZones
  rw [Finset.sum_add_distrib, Finset.sum_const, Finset.card_range, nsmul_eq_mul]
  have hsum : (∑ i in Finset.range N, if (i : Int) < T % (N : Int) then (1 : Int) else 0)
      = T % (N : Int) := by
    calc (∑ i in Finset.range N, if (i : Int) < T % (N : Int) then (1 : Int) else 0)
        = ∑ i in Finset.range N, if i < (T % (N : Int)).toNat then (1 : Int) else 0 :=
          Finset.sum_congr rfl (fun i _ => by rw [if_congr (hcond i) rfl rfl])
      _ = ((Finset.range N).filter (fun i => i < (T % (N : Int)).toNat)).card :=
          Finset.sum_boole _ _
      _ = ((Finset.range (min (T % (N : Int)).toNat N)).card : Int) := by
          rw [range_filter_lt]
      _ = T % (N : Int) := by
          rw [Finset.card_range]; omega
  rw [hsum]
  exact Int.ediv_add_emod T (N : Int)

/-- Every share of `DistributeOverZones` is non-negative. -/
theorem distributeOverZones_nonneg (T : Int) (N : Nat) (hT : 0 ≤ T) (i : Nat) :
    0 ≤ DistributeOverZones i T N := by
  unfold DistributeOverZones
  have hNN : (0 : Int) ≤ (N : Int) := by exact_mod_cast Nat.zero_le N
  have hq : 0 ≤ T / (N : Int) := Int.ediv_nonneg hT hNN
  generalize hqe : T / (N : Int) = q at hq ⊢
  split_ifs <;> omega

/-- A total of zero yields zero for every zone. -/
theorem distributeOverZones_zero (N : Nat) (i : Nat) : DistributeOverZones i 0 N = 0 := by
  unfold DistributeOverZones
  rw [Int.zero_ediv, Int.zero_emod]
  split_ifs with h <;> omega

/-- Earlier zone indices absorb the remainder: shares never increase with
the zone index. -/
theorem distributeOverZones_antitone (T : Int) (N : Nat) (i j : Nat) (hij : i ≤ j) :
    DistributeOverZones j T N ≤ DistributeOverZones i T N := by
  have hij' : (i : Int) ≤ (j : Int) := by exact_mod_cast hij
  unfold DistributeOverZones
  generalize T / (N : Int) = q
  generalize T % (N : Int) = r at *
  split_ifs <;> omega

/-- C2: for every non-negative total and zone count at least one, the
zone distributor's shares sum to the total (after resolving an
int-or-percent bound once against the reference), every share is
non-negative, a total of zero yields zero everywhere, earlier zone
indices absorb the remainder, and the spec's example pool (minimum 4,
maximum 6, maxSurge 50 percent, maxUnavailable 0 over two zones) yields
minimum 2—2, maximum 3—3, maxSurge 2—1 and maxUnavailable 0—0. -/
theorem claim2_zone_distribution_conservation (T : Int) (N : Nat) (hT : 0 ≤ T) (hN : 1 ≤ N) :
    (∑ i in Finset.range N, DistributeOverZones i T N) = T ∧
    (∀ i : Nat, 0 ≤ DistributeOverZones i T N) ∧
    (T = 0 → ∀ i : Nat, DistributeOverZones i T N = 0) ∧
    (∀ i j : Nat, i ≤ j → DistributeOverZones j T N ≤ DistributeOverZones i T N) ∧
    (∀ (v : IntOrPercent) (R : Int), 0 ≤ resolveIntOrPercent v R →
      (∑ i in Finset.range N, DistributePositiveIntOrPercent i v N R)
        = resolveIntOrPercent v R) ∧
    (DistributeOverZones 0 4 2 = 2 ∧ DistributeOverZones 1 4 2 = 2 ∧
     DistributeOverZones 0 6 2 = 3 ∧ DistributeOverZones 1 6 2 = 3 ∧
     resolveIntOrPercent (.percent 50) 6 = 3 ∧
     DistributePositiveIntOrPercent 0 (.percent 50) 2 6 = 2 ∧
     DistributePositiveIntOrPercent 1 (.percent 50) 2 6 = 1 ∧
     DistributePositiveIntOrPercent 0 (.int 0) 2 4 = 0 ∧
     DistributePositiveIntOrPercent 1 (.int 0) 2 4 = 0) := by
  refine ⟨sum_distributeOverZones T N hT hN,
    fun i => distributeOverZones_nonneg T N hT i,
    fun hT0 i => by rw [hT0]; exact distributeOverZones_zero N i,
    fun i j hij => distributeOverZones_antitone T N i j hij,
    fun v R hR => ?_,
    by decide⟩
  unfold DistributePositiveIntOrPercent
  exact sum_distributeOverZones _ N hR hN

/-- Witness for C2 at the spec's example: total 4 over two zones. -/
theorem claim2_witness :
    (0 : Int) ≤ 4 ∧ 1 ≤ 2 ∧
    (∑ i in Finset.range 2, DistributeOverZones i 4 ((2 : Nat) : Int)) = 4 :=
  ⟨by decide, by decide,
    (claim2_zone_distribution_conservation 4 2 (by decide) (by decide)).1⟩

/-- A successful generation pins down every pre-loop step, the pool loop
result, and the final assignment of the four accumulator fields. -/
theorem generateMachineConfig_ok_inv (env : WorkerEnv) (w w' : WorkerDelegate)
    (h : generateMachineConfig env w = .ok w') :
    ∃ kubeconfig ns infra networksV1alpha1 acc,
      env.getKubeConfig = .ok kubeconfig ∧
      env.getClientNamespace kubeconfig = .ok ns ∧
      GetInfrastructureStatus w.worker = .ok infra ∧
      env.convertInfrastructureStatus infra = .ok networksV1alpha1 ∧
      w.worker.Spec.SSHPublicKey.isEmpty = false ∧
      processPools env w kubeconfig ns networksV1alpha1 (networksDataOf infra)
        w.worker.Spec.Pools {} = .ok acc ∧
      w' = { w with machineDeployments := some acc.machineDeployments
                    machineClasses := some acc.machineClasses
                    machineImages := acc.machineImages
                    machineClassVolumes := acc.machineClassVolumes } := by
  unfold generateMachineConfig at h
  cases hk : env.getKubeConfig with
  | error e => simp only [hk] at h; exact Except.noConfusion h
  | ok kubeconfig =>
  simp only [hk] at h
  cases hns : env.getClientNamespace kubeconfig with
  | error e => simp only [hns] at h; exact Except.noConfusion h
  | ok ns =>
  simp only [hns] at h
  cases hinfra : GetInfrastructureStatus w.worker with
  | error e => simp only [hinfra] at h; exact Except.noConfusion h
  | ok infra =>
  simp only [hinfra] at h
  cases hconv : env.convertInfrastructureStatus infra with
  | error e => simp only [hconv] at h; exact Except.noConfusion h
  | ok networksV1alpha1 =>
  simp only [hconv] at h
  by_cases hssh : w.worker.Spec.SSHPublicKey.isEmpty = true
  · simp [hssh] at h
  · rw [Bool.not_eq_true] at hssh
    simp only [hssh, Bool.false_eq_true, if_false] at h
    cases hpp : processPools env w kubeconfig ns networksV1alpha1 (networksDataOf infra)
        w.worker.Spec.Pools {} with
    | error e => simp only [hpp] at h; exact Except.noConfusion h
    | ok acc =>
      simp only [hpp] at h
      exact ⟨kubeconfig, ns, infra, networksV1alpha1, acc, rfl, hns, rfl, hconv,
        hssh, hpp, (Except.ok.inj h).symm⟩

/-- When every pool before a failing pool succeeds, the pool loop aborts
with the failing pool's error, regardless of the accumulator. -/
theorem processPools_error_of_bad (env : WorkerEnv) (w : WorkerDelegate)
    (kubeconfig ns : String) (nv : List NetworkStatus) (nd : List String)
    (badPool : WorkerPool) (e : String) (rest : List WorkerPool)
    (hbad : computePool env w kubeconfig ns nv nd badPool = .error e) :
    ∀ front acc, (∀ p ∈ front, (computePool env w kubeconfig ns nv nd p).isOk = true) →
      processPools env w kubeconfig ns nv nd (front ++ badPool :: rest) acc = .error e := by
  intro front
  induction front with
  | nil =>
    intro acc _
    simp only [List.nil_append, processPools, hbad]
  | cons p fr ih =>
    intro acc hfront
    have hp := hfront p (by simp)
    cases hcp : computePool env w kubeconfig ns nv nd p with
    | error e2 => rw [hcp] at hp; simp [Except.isOk, Except.toBool] at hp
    | ok out =>
      simp only [List.cons_append, processPools, hcp]
      exact ih (accumulatePool acc out) (fun q hq => hfront q (List.mem_cons_of_mem p hq))

/-- C3: a pool referencing a machine type absent from the cloud profile
catalog makes `generateMachineConfig` return the machine-type not-found
error (when the steps before the lookup succeed and every earlier pool is
healthy), and no output delegate is produced for any pool. -/
theorem claim3_fail_fast_missing_machine_type (env : WorkerEnv) (w : WorkerDelegate)
    (front rest : List WorkerPool) (badPool : WorkerPool)
    (kubeconfig ns : String) (infra : InfrastructureStatus) (nv : List NetworkStatus)
    (cfg : WorkerConfig)
    (hpools : w.worker.Spec.Pools = front ++ badPool :: rest)
    (hk : env.getKubeConfig = .ok kubeconfig)
    (hns : env.getClientNamespace kubeconfig = .ok ns)
    (hinfra : GetInfrastructureStatus w.worker = .ok infra)
    (hconv : env.convertInfrastructureStatus infra = .ok nv)
    (hssh : w.worker.Spec.SSHPublicKey.isEmpty = false)
    (hfront : ∀ p ∈ front,
      (computePool env w kubeconfig ns nv (networksDataOf infra) p).isOk = true)
    (hcfg : GetWorkerConfig badPool = .ok cfg)
    (hmiss : w.cluster.CloudProfile.Spec.MachineTypes.find?
      (fun mt => mt.Name = badPool.MachineType) = none) :
    generateMachineConfig env w =
      .error ("machine type " ++ goQuote badPool.MachineType ++
        " not found in cloud profile") ∧
    (∀ w', generateMachineConfig env w ≠ .ok w') := by
  have hbad : computePool env w kubeconfig ns nv (networksDataOf infra) badPool =
      .error ("machine type " ++ goQuote badPool.MachineType ++
        " not found in cloud profile") := by
    unfold computePool getMachineType
    simp only [hcfg, hmiss]
  have hgen : generateMachineConfig env w =
      .error ("machine type " ++ goQuote badPool.MachineType ++
        " not found in cloud profile") := by
    unfold generateMachineConfig
    simp only [hk, hns, hinfra, hconv, hssh, Bool.false_eq_true, if_false, hpools]
    rw [processPools_error_of_bad env w kubeconfig ns nv (networksDataOf infra)
      badPool _ rest hbad front {} hfront]
  exact ⟨hgen, fun w' hcontra => by rw [hgen] at hcontra; exact Except.noConfusion hcontra⟩

/-- Witness for C3: a second pool referencing a missing machine type
aborts the run with the not-found error. -/
theorem claim3_witness :
    generateMachineConfig exEnv exDelegateBad =
      .error ("machine type " ++ goQuote "missing-type" ++ " not found in cloud profile") :=
  (claim3_fail_fast_missing_machine_type exEnv exDelegateBad [exPool] [] exPoolBad
    "KUBECONFIG" "provider-ns" {} [] {} rfl rfl rfl rfl rfl rfl (by decide) rfl rfl).1

/-- C5: in the zone loop the machine deployment name is exactly
`namespace-poolName-z(i+1)` with no hash, the machine class name is the
deployment name followed by the pool hash, and the deployment's
`ClassName` and `SecretName` both equal the class name; the emitted
per-zone collections of a successful pool computation hold exactly these
descriptors in zone order. -/
theorem claim5_deployment_and_class_naming (env : WorkerEnv) (w : WorkerDelegate)
    (pool : WorkerPool) (cfg : WorkerConfig) (mt : MachineType)
    (kubeconfig ns : String) (nv : List NetworkStatus) (nd : List String)
    (hash url rootClass : String) (rootSize : Quantity)
    (rr : ResourceRequirements) (addl : List AdditionalVolume) :
    (∀ (i : Nat) (zone : String),
      let out := processZone w pool cfg kubeconfig ns nv hash url rr rootClass rootSize addl
        i zone
      out.2.1.Name = w.worker.Namespace ++ "-" ++ pool.Name ++ "-z" ++ toString (i + 1) ∧
      out.1.name = out.2.1.Name ++ "-" ++ hash ∧
      out.2.1.ClassName = out.1.name ∧
      out.2.1.SecretName = out.1.name) ∧
    (GetWorkerConfig pool = .ok cfg →
     getMachineType w pool.MachineType = .ok mt →
     env.workerPoolHash pool nd = .ok hash →
     getMachineImageURL w pool.MachineImage.Name pool.MachineImage.Version = .ok url →
     resolveRootVolume w pool mt = .ok (rootClass, rootSize) →
     buildAdditionalVolumes w pool.DataVolumes = .ok addl →
     ∀ out, computePool env w kubeconfig ns nv nd pool = .ok out →
       ∀ i : Nat,
         out.deployments[i]? = (pool.Zones[i]?).map (fun zone =>
           (processZone w pool cfg kubeconfig ns nv hash url
             (mkResourceRequirements w mt cfg) rootClass rootSize addl i zone).2.1) ∧
         out.classes[i]? = (pool.Zones[i]?).map (fun zone =>
           (processZone w pool cfg kubeconfig ns nv hash url
             (mkResourceRequirements w mt cfg) rootClass rootSize addl i zone).1)) := by
  constructor
  · intro i zone
    exact ⟨rfl, rfl, rfl, rfl⟩
  · intro h1 h2 h3 h4 h5 h6 out hout i
    unfold computePool at hout
    simp only [h1, h2, h3, h4, h5, h6] at hout
    have hrec := Except.ok.inj hout
    subst hrec
    constructor
    · simp only [List.getElem?_map, List.getElem?_enum]
      cases pool.Zones[i]? <;> rfl
    · simp only [List.getElem?_map, List.getElem?_enum]
      cases pool.Zones[i]? <;> rfl

/-- Witness for C5: first zone of the example pool. -/
theorem claim5_witness :
    exPoolOut.deployments[0]? = (exPool.Zones[0]?).map (fun zone =>
      (processZone exDelegate exPool {} "KUBECONFIG" "provider-ns" [] "abc123" "http://img"
        (mkResourceRequirements exDelegate exMachineType {}) "standard" ⟨"10Gi"⟩ []
        0 zone).2.1) :=
  ((claim5_deployment_and_class_naming exEnv exDelegate exPool {} exMachineType
    "KUBECONFIG" "provider-ns" [] (networksDataOf {}) "abc123" "http://img" "standard" ⟨"10Gi"⟩
    (mkResourceRequirements exDelegate exMachineType {}) []).2
    rfl rfl rfl rfl rfl rfl exPoolOut rfl 0).1

/-- C6: the root volume class and size come from the pool's explicit
volume spec when present (catalog lookup of the volume type plus the
declared size), otherwise from the machine type's built-in storage, and
when neither is available the pool computation fails the run with the
missing-volume error. -/
theorem claim6_root_volume_resolution (env : WorkerEnv) (w : WorkerDelegate)
    (pool : WorkerPool) (mt : MachineType) (v : PoolVolume)
    (stClass : String) (sz : Quantity)
    (kubeconfig ns : String) (nv : List NetworkStatus) (nd : List String)
    (cfg : WorkerConfig) (hash url : String) :
    (resolveRootVolume w { pool with Volume := some v } mt =
      getStorageClassNameAndSize w v.Type' v.Size) ∧
    (resolveRootVolume w { pool with Volume := none }
      { mt with Storage := some { Class := stClass, StorageSize := some sz } } =
      .ok (stClass, sz)) ∧
    (resolveRootVolume w { pool with Volume := none }
      { mt with Storage := some { Class := stClass, StorageSize := none } } =
      .error "missing volume in worker pool and storage in machine type") ∧
    (resolveRootVolume w { pool with Volume := none } { mt with Storage := none } =
      .error "missing volume in worker pool and storage in machine type") ∧
    (∀ e, GetWorkerConfig pool = .ok cfg →
      getMachineType w pool.MachineType = .ok mt →
      env.workerPoolHash pool nd = .ok hash →
      getMachineImageURL w pool.MachineImage.Name pool.MachineImage.Version = .ok url →
      resolveRootVolume w pool mt = .error e →
      computePool env w kubeconfig ns nv nd pool = .error e) := by
  refine ⟨rfl, rfl, rfl, rfl, ?_⟩
  intro e h1 h2 h3 h4 h5
  unfold computePool
  simp only [h1, h2, h3, h4, h5]

/-- Witness for C6: a pool without a volume spec whose machine type has
no built-in storage fails with the missing-volume error. -/
theorem claim6_witness :
    resolveRootVolume exDelegate exPoolNoVolume exMachineTypeNoStorage =
      .error "missing volume in worker pool and storage in machine type" ∧
    computePool exEnv exDelegate "KUBECONFIG" "provider-ns" [] [] exPoolNoVolume =
      .error "missing volume in worker pool and storage in machine type" :=
  ⟨(claim6_root_volume_resolution exEnv exDelegate exPoolNoVolume exMachineTypeNoStorage
      ⟨"t", "s"⟩ "c" ⟨"1"⟩ "KUBECONFIG" "provider-ns" [] [] {} "abc123" "http://img").2.2.2.1,
   (claim6_root_volume_resolution exEnv exDelegate exPoolNoVolume exMachineTypeNoStorage
      ⟨"t", "s"⟩ "c" ⟨"1"⟩ "KUBECONFIG" "provider-ns" [] [] {} "abc123" "http://img").2.2.2.2
      _ rfl rfl rfl rfl rfl⟩

/-- C8: an empty SSH public key makes `generateMachineConfig` fail, so no
output is produced for any pool; when every step before the check
succeeds, the error is exactly the missing-key error. -/
theorem claim8_missing_ssh_key (env : WorkerEnv) (w : WorkerDelegate)
    (hssh : w.worker.Spec.SSHPublicKey = "") :
    (∀ w', generateMachineConfig env w ≠ .ok w') ∧
    (∀ kubeconfig ns infra networksV1alpha1,
      env.getKubeConfig = .ok kubeconfig →
      env.getClientNamespace kubeconfig = .ok ns →
      GetInfrastructureStatus w.worker = .ok infra →
      env.convertInfrastructureStatus infra = .ok networksV1alpha1 →
      generateMachineConfig env w = .error "missing sshPublicKey in worker") := by
  constructor
  · intro w' h
    obtain ⟨k, ns, infra, nv, acc, _, _, _, _, hempty, _, _⟩ :=
      generateMachineConfig_ok_inv env w w' h
    rw [hssh] at hempty
    simp [String.isEmpty] at hempty
  · intro kubeconfig ns infra networksV1alpha1 hk hns hinfra hconv
    unfold generateMachineConfig
    simp only [hk, hns, hinfra, hconv, hssh]
    rfl

/-- Witness for C8 at a delegate whose worker has an empty SSH key. -/
theorem claim8_witness :
    exDelegateNoSSH.worker.Spec.SSHPublicKey = "" ∧
    generateMachineConfig exEnv exDelegateNoSSH = .error "missing sshPublicKey in worker" :=
  ⟨rfl, (claim8_missing_ssh_key exEnv exDelegateNoSSH rfl).2
    "KUBECONFIG" "provider-ns" {} [] rfl rfl rfl rfl⟩

/-- C9: `DeployMachineClasses` generates only when `machineClasses` is
nil, `GenerateMachineDeployments` only when `machineDeployments` is nil,
and after one successful generation a later `GenerateMachineDeployments`
(under any environment and any modified worker spec) returns the stored
deployments unchanged without recomputing. -/
theorem claim9_generation_caching (env envLater : WorkerEnv) (w : WorkerDelegate) :
    (∀ cs, w.machineClasses = some cs → DeployMachineClasses env w = deployAfterGen env w) ∧
    (w.machineClasses = none → DeployMachineClasses env w =
      match generateMachineConfig env w with
      | .error e => .error e
      | .ok w1 => deployAfterGen env w1) ∧
    (∀ ds, w.machineDeployments = some ds →
      GenerateMachineDeployments env w = .ok (ds, w)) ∧
    (w.machineDeployments = none → GenerateMachineDeployments env w =
      match generateMachineConfig env w with
      | .error e => .error e
      | .ok w1 => .ok (w1.machineDeployments.getD [], w1)) ∧
    (∀ w1, generateMachineConfig env w = .ok w1 → ∀ wk : Worker,
      GenerateMachineDeployments envLater { w1 with worker := wk } =
        .ok (w1.machineDeployments.getD [], { w1 with worker := wk })) := by
  refine ⟨?_, ?_, ?_, ?_, ?_⟩
  · intro cs h
    simp [DeployMachineClasses, h]
  · intro h
    simp [DeployMachineClasses, h]
  · intro ds h
    simp [GenerateMachineDeployments, h]
  · intro h
    simp [GenerateMachineDeployments, h]
  · intro w1 hgen wk
    obtain ⟨k, ns, infra, nv, acc, _, _, _, _, _, _, hw1⟩ :=
      generateMachineConfig_ok_inv env w w1 hgen
    subst hw1
    simp [GenerateMachineDeployments]

/-- Witness for C9 at a delegate with populated accumulator fields. -/
theorem claim9_witness :
    exDelegateCached.machineDeployments = some [] ∧
    GenerateMachineDeployments exEnv exDelegateCached = .ok ([], exDelegateCached) :=
  ⟨rfl, (claim9_generation_caching exEnv exEnv exDelegateCached).2.2.1 [] rfl⟩

/-- Counterexample to C4: with old and new shoots that decode
successfully and differ only in pool "b"'s provider config, and
validation functions that tag every structural worker-config check
"structural" and every update-specific check "update", the update
validation output contains a structural check result for unchanged pool
"a" (index 0) — so pool "a" is re-validated, contrary to the claim. -/
theorem claim4_counterexample :
    validateUpdate exValEnv taggingFns exOldShoot exNewShoot =
      .ok [{ path := workerConfigPath 1, detail := "update" },
           { path := workerConfigPath 0, detail := "structural" },
           { path := workerConfigPath 1, detail := "structural" }] ∧
    { path := workerConfigPath 0, detail := "structural" } ∈
      ((validateUpdate exValEnv taggingFns exOldShoot exNewShoot).toOption.getD
        ([] : List FieldError)) := by
  exact ⟨rfl, by decide⟩

/-- C4 amended: on such an update the update-specific worker-config check
(`ValidateWorkerConfigUpdate`) runs only for pool "b", the name-matched
pool whose decoded config changed; but `validateUpdate` additionally
re-runs the full structural validation of the new shoot, which invokes
`ValidateWorkerConfig` on every pool — including unchanged pool "a". -/
theorem claim4_update_scoping_amended (fns : ValidationFns) :
    validateUpdate exValEnv fns exOldShoot exNewShoot =
      .ok (fns.ValidateWorkersUpdate exOldShoot.Spec.Provider.Workers
             exNewShoot.Spec.Provider.Workers workersPath ++
           fns.ValidateWorkerConfigUpdate cfgBnew {} (workerConfigPath 1) ++
           (fns.ValidateNetworking "" networkPath ++
            fns.ValidateInfrastructureConfig {} infrastructureConfigPath ++
            fns.ValidateControlPlaneConfig {} "" controlPlaneConfigPath ++
            fns.ValidateWorkers exNewShoot.Spec.Provider.Workers workersPath ++
            (fns.ValidateWorkerConfig {} [] (workerConfigPath 0) ++
             fns.ValidateWorkerConfig cfgBnew [] (workerConfigPath 1)))) := by
  simp [validateUpdate, newValidationContext, validateContext, workerConfigUpdateErrors,
    exValEnv, exOldShoot, exNewShoot, exShootWorkerA, exShootWorkerBold, exShootWorkerBnew,
    exCloudProfile, exCloudProfileConfig, admissionDecode, decodeRawBytes, cfgBnew,
    List.enum, List.enumFrom]

/-- Witness for C10 at a changed, in-use secret with an invalid kubeconfig. -/
theorem claim10_witness :
    mapEqual exSecret2.Data exSecret1.Data = false ∧
    exSecretEnvInUse.isSecretInUseByShoot exSecret2 = .ok true ∧
    secretValidate exSecretEnvInUse exSecret2 (some exSecret1) = .error "invalid kubeconfig" :=
  ⟨by decide, rfl,
    ((claim10_secret_validation_scoping exSecretEnvInUse exSecret2 exSecret1 none).2.2
      (by decide) rfl).trans rfl⟩

end Kubevirt
